import Mathlib

/-!
Verification development for the myrotvorets/create-server factory
(src/index.mts).  The definitions below are a shallow embedding of the
source: the environment record, the secure-context builder, the watch
set, the debounce/retry reload machinery, the shutdown signal handlers
and the option-resolution logic of the factory entry point.  File
reading is modelled by an explicit file-system oracle; timers are
modelled by an explicit pending-timer set driven by an event trace.
-/

deriving instance DecidableEq for Except

namespace CreateServer

/-- TLS protocol versions admitted by the configuration schema
(makeEnv restricts TLS_MIN_VERSION / TLS_MAX_VERSION to the choices
TLSv1.2 and TLSv1.3). -/
inductive SecureVersion
  | tls12
  | tls13
deriving DecidableEq, Repr

/-- Environment record produced by makeEnv (lines 10-24 and 35-59 of
src/index.mts): transport mode, credential file paths, TLS policy
strings, client-certificate flag, protocol version bounds And port. -/
structure ServerEnvironment where
  HTTPS : Bool
  TLS_CERT : String
  TLS_KEY : String
  TLS_KEY_PASSPHRASE : String
  DHPARAM_FILE : String
  TLS_CA : String
  TLS_CRL : String
  TLS_CIPHERS : String
  TLS_ECDH_CURVE : String
  TLS_REQUEST_CLIENT_CERT : Bool
  TLS_MIN_VERSION : SecureVersion
  TLS_MAX_VERSION : SecureVersion
  PORT : Nat
deriving DecidableEq, Repr

/-- Options record of the factory (lines 26-33 of src/index.mts).  The
errorHandler field records whether an error callback was supplied; the
callback itself is modelled by the error accounting in the reload
machinery below. -/
structure CreateServerOptions where
  listen : Bool
  setSignalHandlers : Bool
  watchCert : Bool
  reloadDelay : Nat
  reloadAttempts : Nat
  errorHandler : Bool
deriving DecidableEq, Repr

/-- File-system oracle: maps a path to its contents, or none when the
path cannot be read (missing file, empty path, permission error). -/
def FileSystem : Type := String → Option String

/-- Failure of a file read; mirrors the rejection of fs readFile. -/
inductive ReadError
  | fileAccessError (path : String)
deriving DecidableEq, Repr

/-- Read a file by path; rejects when the oracle has no contents for
the path, as readFile rejects for an unreadable path. -/
def readFile (fs : FileSystem) (path : String) : Except ReadError String :=
  match fs path with
  | some contents => Except.ok contents
  | none => Except.error (ReadError.fileAccessError path)

/-- SecureContextOptions record assembled by makeSecureContext
(lines 61-85): policy fields copied from the environment plus the raw
credential bytes.  Optional fields are none when the code leaves them
undefined. -/
structure SecureContextOptions where
  honorCipherOrder : Bool
  passphrase : Option String
  ciphers : Option String
  ecdhCurve : Option String
  minVersion : SecureVersion
  maxVersion : SecureVersion
  cert : Option String
  key : Option String
  ca : Option String
  crl : Option String
  dhparam : Option String
deriving DecidableEq, Repr

/-- Empty strings are normalized to undefined (the pattern
value || undefined at lines 64-66). -/
def orUndefined (s : String) : Option String :=
  if s = "" then none else some s

/-- Embedding of makeSecureContext (lines 61-85): reads the cert and
key unconditionally, reads CA / CRL / DH parameters only when the path
is non-empty (a truthy string), copies the policy fields verbatim, and
rejects when any attempted read fails (Promise.all).  The version
bounds are copied with no validation. -/
def makeSecureContext (env : ServerEnvironment) (fs : FileSystem) :
    Except ReadError SecureContextOptions := do
  let cert ← readFile fs env.TLS_CERT
  let key ← readFile fs env.TLS_KEY
  let ca ← if env.TLS_CA ≠ "" then (readFile fs env.TLS_CA).map some else pure none
  let crl ← if env.TLS_CRL ≠ "" then (readFile fs env.TLS_CRL).map some else pure none
  let dhparam ← if env.DHPARAM_FILE ≠ "" then (readFile fs env.DHPARAM_FILE).map some else pure none
  return { honorCipherOrder := true
           passphrase := orUndefined env.TLS_KEY_PASSPHRASE
           ciphers := orUndefined env.TLS_CIPHERS
           ecdhCurve := orUndefined env.TLS_ECDH_CURVE
           minVersion := env.TLS_MIN_VERSION
           maxVersion := env.TLS_MAX_VERSION
           cert := some cert
           key := some key
           ca := ca
           crl := crl
           dhparam := dhparam }

/-- Paths passed to readFile by makeSecureContext (lines 74-80): the
cert and key paths unconditionally, and the CA, CRL and DH-parameter
paths only when configured non-empty. -/
def makeSecureContextReads (env : ServerEnvironment) : List String :=
  [env.TLS_CERT, env.TLS_KEY]
    ++ (if env.TLS_CA ≠ "" then [env.TLS_CA] else [])
    ++ (if env.TLS_CRL ≠ "" then [env.TLS_CRL] else [])
    ++ (if env.DHPARAM_FILE ≠ "" then [env.DHPARAM_FILE] else [])

/-- Paths handed to the filesystem watcher when certificate watching
is enabled (lines 119-130): cert and key unconditionally; the CA path
when TLS_CA is non-empty (line 124); and the CRL path whenever
TLS_CERT is non-empty (the guard at line 128 tests env.TLS_CERT, not
env.TLS_CRL). -/
def watchSet (env : ServerEnvironment) : List String :=
  [env.TLS_CERT, env.TLS_KEY]
    ++ (if env.TLS_CA ≠ "" then [env.TLS_CA] else [])
    ++ (if env.TLS_CERT ≠ "" then [env.TLS_CRL] else [])

/-- Result of server construction: a plain HTTP listener or an HTTPS
listener carrying the secure-context options and the client-cert
flags (lines 92-98 and 181). -/
inductive ServerResult
  | httpServer
  | httpsServer (options : SecureContextOptions) (requestCert : Bool)
deriving DecidableEq, Repr

/-- Embedding of the construction part of createSecureServer
(lines 92-98): builds the secure context and creates the HTTPS
listener from it; rejects when the builder rejects. -/
def createSecureServerModel (env : ServerEnvironment) (fs : FileSystem) :
    Except ReadError ServerResult :=
  (makeSecureContext env fs).map
    (fun options => ServerResult.httpsServer options env.TLS_REQUEST_CLIENT_CERT)

/-- Embedding of the listener choice in createServer (line 181):
the secure branch when HTTPS is set, the plain branch otherwise. -/
def createServerModel (env : ServerEnvironment) (fs : FileSystem) :
    Except ReadError ServerResult :=
  if env.HTTPS then createSecureServerModel env fs else Except.ok ServerResult.httpServer

/-- Paths read during createServer: the secure branch reads through
makeSecureContext (line 93); the plain branch (line 181, else arm)
performs no file reads at all. -/
def createServerReads (env : ServerEnvironment) : List String :=
  if env.HTTPS then makeSecureContextReads env else []

/-- A scheduled timer of the reload machinery.  Each call of
watchHandler (lines 102-117) creates a fresh closure over a fresh
attempts cell; cycle identifies that closure, tid identifies the
individual setTimeout registration. -/
structure Timer where
  tid : Nat
  cycle : Nat
deriving DecidableEq, Repr

/-- Mutable state of the watchCert block of createSecureServer
(lines 100-137): the set of pending (registered and neither cleared
nor fired) timers, the handle stored in the timeout variable
(line 101 and 116), the attempts cell of each watchHandler cycle
(line 104, indexed by cycle), and observable history: renew reports
through the error callback (line 109), setSecureContext invocations
(line 107) and makeSecureContext invocations (line 106). -/
structure ReloadState where
  nextTid : Nat
  nextCycle : Nat
  pending : List Timer
  debounceHandle : Option Nat
  budgets : List Nat
  renewErrors : Nat
  contextSets : List SecureContextOptions
  buildCount : Nat
deriving DecidableEq, Repr

/-- State right after the watchCert block is set up: no timer pending,
the timeout variable undefined, nothing observed yet. -/
def initialReloadState : ReloadState :=
  { nextTid := 0
    nextCycle := 0
    pending := []
    debounceHandle := none
    budgets := []
    renewErrors := 0
    contextSets := []
    buildCount := 0 }

/-- Embedding of watchHandler (lines 102-117): clearTimeout on the
stored debounce handle (line 103), a fresh attempts cell initialised
to opts.reloadAttempts (line 104), and a new debounce timer whose
handle is stored in the timeout variable (line 116). -/
def notifyChange (opts : CreateServerOptions) (s : ReloadState) : ReloadState :=
  let remaining :=
    match s.debounceHandle with
    | some h => s.pending.filter (fun t => t.tid ≠ h)
    | none => s.pending
  { s with
    pending := remaining ++ [⟨s.nextTid, s.nextCycle⟩]
    debounceHandle := some s.nextTid
    budgets := s.budgets ++ [opts.reloadAttempts]
    nextTid := s.nextTid + 1
    nextCycle := s.nextCycle + 1 }

/-- Embedding of a pending timer firing, which runs reloader
(lines 105-114) with the file system as of that moment: the timer
leaves the pending set, makeSecureContext runs; on success the new
options are applied through setSecureContext (line 107); on failure
the error is reported through the error callback when one is supplied
(line 109), and when the attempts cell of the closure is positive it
is decremented and a retry timer is registered (lines 110-113), whose
handle is not stored anywhere.  Firing a timer identifier that is not
pending changes nothing (a cleared timer never fires). -/
def fireTimer (env : ServerEnvironment) (opts : CreateServerOptions) (fs : FileSystem)
    (tid : Nat) (s : ReloadState) : ReloadState :=
  match s.pending.find? (fun t => t.tid = tid) with
  | none => s
  | some t =>
    let remaining := s.pending.filter (fun u => u.tid ≠ tid)
    match makeSecureContext env fs with
    | Except.ok options =>
        { s with
          pending := remaining
          buildCount := s.buildCount + 1
          contextSets := s.contextSets ++ [options] }
    | Except.error _ =>
        let reported := s.renewErrors + (if opts.errorHandler then 1 else 0)
        let b := s.budgets.getD t.cycle 0
        if 0 < b then
          { s with
            pending := remaining ++ [⟨s.nextTid, t.cycle⟩]
            buildCount := s.buildCount + 1
            renewErrors := reported
            budgets := s.budgets.set t.cycle (b - 1)
            nextTid := s.nextTid + 1 }
        else
          { s with
            pending := remaining
            buildCount := s.buildCount + 1
            renewErrors := reported }

/-- Event of the reload machinery: a file-change notification invoking
watchHandler, or a pending timer firing while the file system holds
the given contents. -/
inductive ReloadEvent
  | change
  | fire (tid : Nat) (fs : FileSystem)

/-- One step of the reload machinery. -/
def reloadStep (env : ServerEnvironment) (opts : CreateServerOptions)
    (s : ReloadState) : ReloadEvent → ReloadState
  | ReloadEvent.change => notifyChange opts s
  | ReloadEvent.fire tid fs => fireTimer env opts fs tid s

/-- Run the reload machinery over a trace of events. -/
def runReload (env : ServerEnvironment) (opts : CreateServerOptions)
    (s : ReloadState) (events : List ReloadEvent) : ReloadState :=
  events.foldl (reloadStep env opts) s

/-- Tags of the error callback (line 32): renew for a failed reload
attempt (line 109), watch for a failure of the watcher itself
(line 134). -/
inductive ErrorTag
  | renew
  | watch
deriving DecidableEq, Repr

/-- Error listeners attached to every watcher (lines 132-136): when an
error callback is supplied each watcher gets one listener reporting
with the watch tag; otherwise no listener is attached at all. -/
def watcherErrorListeners (opts : CreateServerOptions) : List ErrorTag :=
  if opts.errorHandler then [ErrorTag.watch] else []

/-- Outcome of a watcher emitting an error event: the tags it is
reported under, and whether the event is fatal.  The platform default
for an error event with no listener attached is to throw the error
(Node EventEmitter semantics), so the event is fatal exactly when the
listener list is empty. -/
def emitWatcherError (opts : CreateServerOptions) : List ErrorTag × Bool :=
  (watcherErrorListeners opts, (watcherErrorListeners opts).isEmpty)

/-- Observable state of the listener for the shutdown machinery:
whether it is accepting connections, and the number of established
open connections. -/
structure ListenerState where
  listening : Bool
  openConnections : Nat
deriving DecidableEq, Repr

/-- Signals handled by setSignalHandlers (lines 155-158). -/
inductive Signal
  | SIGTERM
  | SIGINT
  | SIGQUIT
  | SIGUSR2
deriving DecidableEq, Repr

/-- Embedding of gracefulShutdown (lines 143-149): when the listener
is accepting, server.close stops acceptance and leaves established
connections alone; otherwise closeAllConnections force-closes every
open connection. -/
def gracefulShutdown (s : ListenerState) : ListenerState :=
  if s.listening then { s with listening := false }
  else { s with openConnections := 0 }

/-- Embedding of finish (lines 151-153): closeAllConnections
force-closes every open connection unconditionally. -/
def finish (s : ListenerState) : ListenerState :=
  { s with openConnections := 0 }

/-- Signal dispatch installed by setSignalHandlers (lines 155-158):
terminate and interrupt run gracefulShutdown, quit and
user-defined-2 run finish. -/
def signalHandler : Signal → ListenerState → ListenerState
  | Signal.SIGTERM => gracefulShutdown
  | Signal.SIGINT => gracefulShutdown
  | Signal.SIGQUIT => finish
  | Signal.SIGUSR2 => finish

/-- Graceful signals are terminate and interrupt; quit and
user-defined-2 are immediate (lines 155-158). -/
def isGracefulSignal : Signal → Bool
  | Signal.SIGTERM => true
  | Signal.SIGINT => true
  | Signal.SIGQUIT => false
  | Signal.SIGUSR2 => false

/-- Partial options record accepted by createServer (line 163,
Partial of CreateServerOptions): every field optional. -/
structure PartialOptions where
  listen : Option Bool := Option.none
  setSignalHandlers : Option Bool := Option.none
  watchCert : Option Bool := Option.none
  reloadDelay : Option Nat := Option.none
  reloadAttempts : Option Nat := Option.none
  errorHandler : Option Bool := Option.none
deriving DecidableEq, Repr

/-- Defaults of createServer (lines 165-172). -/
def defaultOptions : CreateServerOptions :=
  { listen := true
    setSignalHandlers := true
    watchCert := true
    reloadDelay := 1000
    reloadAttempts := 5
    errorHandler := false }

/-- Spread merge of the defaults with the supplied partial record
(line 178): a supplied field wins, an absent field keeps the
default. -/
def mergeOptions (d : CreateServerOptions) (p : PartialOptions) : CreateServerOptions :=
  { listen := p.listen.getD d.listen
    setSignalHandlers := p.setSignalHandlers.getD d.setSignalHandlers
    watchCert := p.watchCert.getD d.watchCert
    reloadDelay := p.reloadDelay.getD d.reloadDelay
    reloadAttempts := p.reloadAttempts.getD d.reloadAttempts
    errorHandler := p.errorHandler.getD d.errorHandler }

/-- The second argument of createServer: omitted, a bare boolean, or a
partial options record (line 163). -/
inductive OptionsArg
  | omitted
  | bool (b : Bool)
  | record (p : PartialOptions)

/-- Option resolution of createServer (lines 165-178): a bare boolean
is rewritten to a record holding only listen (lines 174-176), then the
defaults are merged with the supplied record (line 178). -/
def resolveOptions : OptionsArg → CreateServerOptions
  | OptionsArg.omitted => defaultOptions
  | OptionsArg.bool b => mergeOptions defaultOptions { listen := some b }
  | OptionsArg.record p => mergeOptions defaultOptions p

/-- Trace consisting of one change notification followed by k timer
firings with identifiers 0, 1, ..., k-1 against a fixed file system:
the debounce timer of the single burst fires first, then each retry
timer it spawns in turn. -/
def failTrace (fs : FileSystem) (k : Nat) : List ReloadEvent :=
  ReloadEvent.change :: (List.range k).map (fun i => ReloadEvent.fire i fs)

/-- Concrete plain-transport environment. -/
def envPlain : ServerEnvironment :=
  { HTTPS := false
    TLS_CERT := ""
    TLS_KEY := ""
    TLS_KEY_PASSPHRASE := ""
    DHPARAM_FILE := ""
    TLS_CA := ""
    TLS_CRL := ""
    TLS_CIPHERS := ""
    TLS_ECDH_CURVE := ""
    TLS_REQUEST_CLIENT_CERT := false
    TLS_MIN_VERSION := SecureVersion.tls13
    TLS_MAX_VERSION := SecureVersion.tls13
    PORT := 3000 }

/-- Concrete secure environment with cert and key configured and the
optional paths unconfigured. -/
def envSecure : ServerEnvironment :=
  { envPlain with
    HTTPS := true
    TLS_CERT := "cert.pem"
    TLS_KEY := "key.pem" }

/-- File system with no readable path. -/
def fsNone : FileSystem := fun _ => none

/-- File system holding the first contents of the secure pair. -/
def fsFirst : FileSystem := fun p =>
  if p = "cert.pem" then some "CERT1" else if p = "key.pem" then some "KEY1" else none

/-- File system holding the replaced cert contents. -/
def fsSecond : FileSystem := fun p =>
  if p = "cert.pem" then some "CERT2" else if p = "key.pem" then some "KEY1" else none

/-- Concrete options with watching on, an error callback supplied and
the default retry budget of five. -/
def optsFive : CreateServerOptions :=
  { listen := true
    setSignalHandlers := true
    watchCert := true
    reloadDelay := 1000
    reloadAttempts := 5
    errorHandler := true }

/-- Options identical to optsFive with a retry budget of one. -/
def optsOne : CreateServerOptions :=
  { optsFive with reloadAttempts := 1 }

/-- Options identical to optsFive with no error callback. -/
def optsSilent : CreateServerOptions :=
  { optsFive with errorHandler := false }

end CreateServer

namespace CreateServer

/-- Secure-context options built from envSecure and fsFirst. -/
def ctxFirst : SecureContextOptions :=
  { honorCipherOrder := true
    passphrase := none
    ciphers := none
    ecdhCurve := none
    minVersion := SecureVersion.tls13
    maxVersion := SecureVersion.tls13
    cert := some "CERT1"
    key := some "KEY1"
    ca := none
    crl := none
    dhparam := none }

/-- Reload state reached from the initial state by one change
notification followed by one failing firing of the debounce timer:
used as a concrete state with a pending retry timer. -/
def stateAfterFailedBurst : ReloadState :=
  runReload envSecure optsFive initialReloadState
    [ReloadEvent.change, ReloadEvent.fire 0 fsNone]

lemma getD_concat_length (l : List Nat) (a : Nat) : (l ++ [a]).getD l.length 0 = a := by
  induction l with
  | nil => rfl
  | cons x xs ih => simp [ih]

lemma runReload_concat (env : ServerEnvironment) (opts : CreateServerOptions)
    (s : ReloadState) (l : List ReloadEvent) (e : ReloadEvent) :
    runReload env opts s (l ++ [e]) = reloadStep env opts (runReload env opts s l) e := by
  simp [runReload, List.foldl_append]

lemma failTrace_succ (fs : FileSystem) (k : Nat) :
    failTrace fs (k + 1) = failTrace fs k ++ [ReloadEvent.fire k fs] := by
  simp [failTrace, List.range_succ]

/-- State of the reload machinery after one change notification and k
consecutive failing timer firings, for k at most the retry budget: the
retry timer of the k-th failure is pending, the attempts cell holds
the budget minus k, and k renew errors have been reported when an
error callback is supplied. -/
def failedState (opts : CreateServerOptions) (k : Nat) : ReloadState :=
  { nextTid := k + 1
    nextCycle := 1
    pending := [⟨k, 0⟩]
    debounceHandle := some 0
    budgets := [opts.reloadAttempts - k]
    renewErrors := if opts.errorHandler then k else 0
    contextSets := []
    buildCount := k }

lemma runReload_failTrace (env : ServerEnvironment) (opts : CreateServerOptions)
    (fs : FileSystem) (e : ReadError)
    (hfail : makeSecureContext env fs = Except.error e) :
    ∀ k, k ≤ opts.reloadAttempts →
      runReload env opts initialReloadState (failTrace fs k) = failedState opts k := by
  intro k
  induction k with
  | zero =>
    intro _
    cases h : opts.errorHandler <;>
      simp [failTrace, runReload, reloadStep, notifyChange, initialReloadState, failedState, h]
  | succ k ih =>
    intro hk
    have hk' : k ≤ opts.reloadAttempts := Nat.le_of_succ_le hk
    have hlt : k < opts.reloadAttempts := hk
    have hpos : 0 < opts.reloadAttempts - k := Nat.sub_pos_of_lt hlt
    rw [failTrace_succ, runReload_concat, ih hk']
    show fireTimer env opts fs k (failedState opts k) = failedState opts (k + 1)
    simp only [fireTimer, failedState, hfail, List.find?, List.filter]
    simp only [decide_True, decide_eq_true_eq, if_pos rfl]
    simp [List.getD, Nat.sub_sub]
    rw [if_pos hlt]
    cases h : opts.errorHandler <;> simp [h]

/-- State of the reload machinery after a burst of n change
notifications with no timer firing in between: a single pending
debounce timer, the one registered by the last notification, and no
build, report or context replacement yet. -/
def burstState (opts : CreateServerOptions) (n : Nat) : ReloadState :=
  { nextTid := n
    nextCycle := n
    pending := [⟨n - 1, n - 1⟩]
    debounceHandle := some (n - 1)
    budgets := List.replicate n opts.reloadAttempts
    renewErrors := 0
    contextSets := []
    buildCount := 0 }

lemma runReload_burst (env : ServerEnvironment) (opts : CreateServerOptions) :
    ∀ n, 1 ≤ n →
      runReload env opts initialReloadState (List.replicate n ReloadEvent.change)
        = burstState opts n := by
  intro n
  induction n with
  | zero => omega
  | succ k ih =>
    intro _
    cases k with
    | zero =>
      simp [runReload, reloadStep, notifyChange, initialReloadState, burstState]
    | succ j =>
      rw [List.replicate_succ', runReload_concat, ih (Nat.le_add_left 1 j)]
      show notifyChange opts (burstState opts (j + 1)) = burstState opts (j + 1 + 1)
      simp only [notifyChange, burstState, Nat.add_sub_cancel]
      simp [List.filter, List.replicate_succ']

lemma makeSecureContext_ok_versions (env : ServerEnvironment) (fs : FileSystem)
    (v : SecureContextOptions) (h : makeSecureContext env fs = Except.ok v) :
    v.minVersion = env.TLS_MIN_VERSION ∧ v.maxVersion = env.TLS_MAX_VERSION := by
  simp only [makeSecureContext, bind, Except.bind, pure, Except.pure] at h
  repeat' split at h
  all_goals cases h
  all_goals exact ⟨rfl, rfl⟩

/-- Claim C1: with a positive retry maximum, when every reload attempt
of a single notification cycle fails, the code reports one renew error
for the initial attempt and one for each of the reloadAttempts
retries, so the report count is reloadAttempts + 1, one more than the
configured maximum; the secure context is never replaced and no timer
is left pending at the end of the cycle. -/
theorem C1_full_failure_reports_max_plus_one
    (env : ServerEnvironment) (opts : CreateServerOptions) (fs : FileSystem) (e : ReadError)
    (_hpos : 0 < opts.reloadAttempts) (hhandler : opts.errorHandler = true)
    (hfail : makeSecureContext env fs = Except.error e) :
    (runReload env opts initialReloadState
        (failTrace fs (opts.reloadAttempts + 1))).renewErrors = opts.reloadAttempts + 1 ∧
    (runReload env opts initialReloadState
        (failTrace fs (opts.reloadAttempts + 1))).contextSets = [] ∧
    (runReload env opts initialReloadState
        (failTrace fs (opts.reloadAttempts + 1))).pending = [] := by
  rw [failTrace_succ, runReload_concat,
    runReload_failTrace env opts fs e hfail opts.reloadAttempts (Nat.le_refl _)]
  simp [reloadStep, fireTimer, failedState, hfail, hhandler, List.find?, List.filter, List.getD]

/-- Witness for C1 at the default budget of five: six renew errors. -/
theorem C1_full_failure_witness :
    (runReload envSecure optsFive initialReloadState (failTrace fsNone 6)).renewErrors = 6 ∧
    (runReload envSecure optsFive initialReloadState (failTrace fsNone 6)).contextSets = [] ∧
    (runReload envSecure optsFive initialReloadState (failTrace fsNone 6)).pending = [] :=
  C1_full_failure_reports_max_plus_one envSecure optsFive fsNone
    (ReadError.fileAccessError "cert.pem") (by decide) rfl rfl

/-- Counterexample to claim C1 as stated: with a configured maximum of
one attempt and an everywhere-failing builder, a complete cycle (one
notification, the debounce firing and the single retry firing, nothing
pending afterwards) reports two renew errors, not one. -/
theorem C1_claimed_count_counterexample :
    (runReload envSecure optsOne initialReloadState (failTrace fsNone 2)).renewErrors = 2 ∧
    (runReload envSecure optsOne initialReloadState (failTrace fsNone 2)).renewErrors
        ≠ optsOne.reloadAttempts ∧
    (runReload envSecure optsOne initialReloadState (failTrace fsNone 2)).pending = [] ∧
    (runReload envSecure optsOne initialReloadState (failTrace fsNone 2)).contextSets = [] := by
  decide

/-- Claim C2: the watch set is supposed to contain the CRL path only
when the CRL path is configured; in the code the guard of the CRL
watcher tests TLS_CERT (line 128), so the unconfigured, empty CRL path
of envSecure is handed to the filesystem watcher. -/
theorem C2_empty_crl_watched :
    envSecure.TLS_CRL = "" ∧
    watchSet envSecure = ["cert.pem", "key.pem", ""] ∧
    "" ∈ watchSet envSecure := by
  decide

/-- Secure environment of the C3 scenario: minimum version above the
maximum, both explicit. -/
def envMinAboveMax : ServerEnvironment :=
  { envPlain with
    HTTPS := true
    TLS_CERT := "a.pem"
    TLS_KEY := "a.key"
    TLS_MIN_VERSION := SecureVersion.tls13
    TLS_MAX_VERSION := SecureVersion.tls12 }

/-- File system holding readable contents for the C3 scenario. -/
def fsAB : FileSystem := fun p =>
  if p = "a.pem" then some "CERT" else if p = "a.key" then some "KEY" else none

/-- Secure-context options built from envMinAboveMax and fsAB: the
inverted version bounds appear verbatim. -/
def ctxAB : SecureContextOptions :=
  { honorCipherOrder := true
    passphrase := none
    ciphers := none
    ecdhCurve := none
    minVersion := SecureVersion.tls13
    maxVersion := SecureVersion.tls12
    cert := some "CERT"
    key := some "KEY"
    ca := none
    crl := none
    dhparam := none }

/-- Counterexample to claim C3 as stated: on the scenario environment
with readable cert and key and TLSv1.3 minimum above TLSv1.2 maximum,
construction succeeds and produces the HTTPS listener; no error of any
kind is raised (the code contains no version-bound validation and no
ConfigurationError), and the inverted bounds are passed through. -/
theorem C3_counterexample :
    createServerModel envMinAboveMax fsAB = Except.ok (ServerResult.httpsServer ctxAB false) ∧
    ctxAB.minVersion = SecureVersion.tls13 ∧ ctxAB.maxVersion = SecureVersion.tls12 := by
  decide

/-- Claim C3 amended: the factory performs no validation of the
protocol version bounds; whenever secure construction succeeds, the
configured minimum and maximum versions are copied verbatim into the
listener options, neither clamped nor rejected, even when the minimum
exceeds the maximum. -/
theorem C3_amended_versions_passed_through
    (env : ServerEnvironment) (fs : FileSystem) (o : SecureContextOptions) (rc : Bool)
    (h : createServerModel env fs = Except.ok (ServerResult.httpsServer o rc)) :
    o.minVersion = env.TLS_MIN_VERSION ∧ o.maxVersion = env.TLS_MAX_VERSION := by
  rw [createServerModel] at h
  by_cases hh : env.HTTPS = true
  · rw [if_pos hh, createSecureServerModel] at h
    cases hv : makeSecureContext env fs with
    | ok v =>
      rw [hv] at h
      simp only [Except.map] at h
      cases h
      exact makeSecureContext_ok_versions env fs o hv
    | error e => rw [hv] at h; cases h
  · rw [if_neg hh] at h
    cases h

/-- Witness for C3 amended at the scenario input. -/
theorem C3_amended_witness :
    ctxAB.minVersion = envMinAboveMax.TLS_MIN_VERSION ∧
    ctxAB.maxVersion = envMinAboveMax.TLS_MAX_VERSION :=
  C3_amended_versions_passed_through envMinAboveMax fsAB ctxAB false (by decide)

/-- Counterexample to claim C4 as stated: after one notification, one
failing firing of the debounce timer (which registers retry timer 1)
and a second notification, the retry timer of the first burst is still
pending — it was not cancelled, since only the stored debounce handle
is cleared — and it subsequently fires, running a second build on top
of the one of the first burst. -/
theorem C4_counterexample :
    (⟨1, 0⟩ : Timer) ∈ (runReload envSecure optsFive initialReloadState
        [ReloadEvent.change, ReloadEvent.fire 0 fsNone, ReloadEvent.change]).pending ∧
    (runReload envSecure optsFive initialReloadState
        [ReloadEvent.change, ReloadEvent.fire 0 fsNone, ReloadEvent.change,
         ReloadEvent.fire 1 fsNone]).buildCount = 2 := by
  decide

/-- Claim C4 amended: a change notification arriving in any state
clears only the timer named by the stored debounce handle; every other
pending timer, in particular a pending retry timer, survives and can
still fire.  The notification does open a fresh debounce cycle whose
attempts cell is the configured maximum, and stores the handle of the
fresh debounce timer. -/
theorem C4_change_keeps_retry_resets_budget
    (opts : CreateServerOptions) (s : ReloadState) (t : Timer)
    (hlen : s.budgets.length = s.nextCycle)
    (hmem : t ∈ s.pending)
    (hne : some t.tid ≠ s.debounceHandle) :
    t ∈ (notifyChange opts s).pending ∧
    (notifyChange opts s).budgets.getD s.nextCycle 0 = opts.reloadAttempts ∧
    (notifyChange opts s).debounceHandle = some s.nextTid := by
  refine ⟨?_, ?_, rfl⟩
  · simp only [notifyChange]
    apply List.mem_append_left
    cases hd : s.debounceHandle with
    | none => simpa [hd] using hmem
    | some h =>
      rw [hd] at hne
      simp only [hd]
      refine List.mem_filter.mpr ⟨hmem, ?_⟩
      simp only [decide_eq_true_eq]
      intro heq
      exact hne (by rw [heq])
  · simp only [notifyChange]
    rw [← hlen]
    exact getD_concat_length s.budgets opts.reloadAttempts

/-- Witness for C4 amended: the pending retry timer of
stateAfterFailedBurst survives the next notification, whose fresh
cycle gets the full budget of five. -/
theorem C4_change_keeps_retry_witness :
    (⟨1, 0⟩ : Timer) ∈ (notifyChange optsFive stateAfterFailedBurst).pending ∧
    (notifyChange optsFive stateAfterFailedBurst).budgets.getD
        stateAfterFailedBurst.nextCycle 0 = optsFive.reloadAttempts ∧
    (notifyChange optsFive stateAfterFailedBurst).debounceHandle
        = some stateAfterFailedBurst.nextTid :=
  C4_change_keeps_retry_resets_budget optsFive stateAfterFailedBurst ⟨1, 0⟩
    (by decide) (by decide) (by decide)

/-- Claim C5: for every burst of n observed change notifications with
none of the pending timers firing in between, exactly one timer is
pending afterwards and no build has run; firing that timer runs
exactly one build, against the file contents current at that moment,
and on success applies exactly the options built from those
contents. -/
theorem C5_debounce_collapses_to_one_build
    (env : ServerEnvironment) (opts : CreateServerOptions) (n : Nat) (fs : FileSystem)
    (hn : 1 ≤ n) :
    (runReload env opts initialReloadState
        (List.replicate n ReloadEvent.change)).pending = [⟨n - 1, n - 1⟩] ∧
    (runReload env opts initialReloadState
        (List.replicate n ReloadEvent.change)).buildCount = 0 ∧
    (runReload env opts initialReloadState
        (List.replicate n ReloadEvent.change ++ [ReloadEvent.fire (n - 1) fs])).buildCount = 1 ∧
    (runReload env opts initialReloadState
        (List.replicate n ReloadEvent.change ++ [ReloadEvent.fire (n - 1) fs])).contextSets
        = (makeSecureContext env fs).toOption.toList := by
  rw [runReload_concat, runReload_burst env opts n hn]
  refine ⟨rfl, rfl, ?_⟩
  cases hv : makeSecureContext env fs with
  | ok v =>
    simp [reloadStep, fireTimer, burstState, hv, Except.toOption, List.find?, List.filter]
  | error e =>
    simp only [reloadStep, fireTimer, burstState, hv, Except.toOption, List.find?,
      List.filter, decide_True]
    split <;> simp

/-- Witness for C5 on the scenario of the spec: two notifications in
one debounce window, then the single pending timer fires against the
replaced cert contents; one build runs and the applied options hold
the second contents. -/
theorem C5_debounce_witness :
    (runReload envSecure optsFive initialReloadState
        (List.replicate 2 ReloadEvent.change)).pending = [⟨1, 1⟩] ∧
    (runReload envSecure optsFive initialReloadState
        (List.replicate 2 ReloadEvent.change)).buildCount = 0 ∧
    (runReload envSecure optsFive initialReloadState
        (List.replicate 2 ReloadEvent.change ++ [ReloadEvent.fire 1 fsSecond])).buildCount = 1 ∧
    (runReload envSecure optsFive initialReloadState
        (List.replicate 2 ReloadEvent.change ++ [ReloadEvent.fire 1 fsSecond])).contextSets
        = (makeSecureContext envSecure fsSecond).toOption.toList :=
  C5_debounce_collapses_to_one_build envSecure optsFive 2 fsSecond (by decide)

/-- Claim C6: within one notification cycle, when the first k - 1
attempts fail and attempt k succeeds, for k at most the configured
maximum, the successful firing leaves no timer pending — no further
retry is scheduled — and the secure context is replaced with exactly
the freshly built options. -/
theorem C6_success_applies_and_stops
    (env : ServerEnvironment) (opts : CreateServerOptions) (k : Nat)
    (fsF fsG : FileSystem) (e : ReadError) (o : SecureContextOptions)
    (hk1 : 1 ≤ k) (hk : k ≤ opts.reloadAttempts)
    (hfail : makeSecureContext env fsF = Except.error e)
    (hok : makeSecureContext env fsG = Except.ok o) :
    (runReload env opts initialReloadState
        (failTrace fsF (k - 1) ++ [ReloadEvent.fire (k - 1) fsG])).contextSets = [o] ∧
    (runReload env opts initialReloadState
        (failTrace fsF (k - 1) ++ [ReloadEvent.fire (k - 1) fsG])).pending = [] ∧
    (runReload env opts initialReloadState
        (failTrace fsF (k - 1) ++ [ReloadEvent.fire (k - 1) fsG])).buildCount = k := by
  rw [runReload_concat,
    runReload_failTrace env opts fsF e hfail (k - 1) (Nat.le_trans (Nat.sub_le k 1) hk)]
  simp only [reloadStep, fireTimer, failedState, hok, List.find?, List.filter, decide_True]
  simp [Nat.sub_add_cancel hk1]

/-- Witness for C6 at k equal one: the debounce firing succeeds at
once, applies the options built from fsFirst and schedules nothing. -/
theorem C6_success_witness :
    (runReload envSecure optsFive initialReloadState
        (failTrace fsNone 0 ++ [ReloadEvent.fire 0 fsFirst])).contextSets = [ctxFirst] ∧
    (runReload envSecure optsFive initialReloadState
        (failTrace fsNone 0 ++ [ReloadEvent.fire 0 fsFirst])).pending = [] ∧
    (runReload envSecure optsFive initialReloadState
        (failTrace fsNone 0 ++ [ReloadEvent.fire 0 fsFirst])).buildCount = 1 :=
  C6_success_applies_and_stops envSecure optsFive 1 fsNone fsFirst
    (ReadError.fileAccessError "cert.pem") ctxFirst (by decide) (by decide) rfl rfl

/-- Claim C7: a graceful signal delivered while the listener is
accepting stops acceptance and leaves every established connection
open; a graceful signal delivered while it is not accepting
force-closes all connections; an immediate signal force-closes all
connections whatever the listener state. -/
theorem C7_signal_policies (s : ListenerState) (sig : Signal) :
    (isGracefulSignal sig = true → s.listening = true →
        signalHandler sig s = { listening := false, openConnections := s.openConnections }) ∧
    (isGracefulSignal sig = true → s.listening = false →
        signalHandler sig s = { listening := false, openConnections := 0 }) ∧
    (isGracefulSignal sig = false →
        signalHandler sig s = { listening := s.listening, openConnections := 0 }) := by
  refine ⟨?_, ?_, ?_⟩ <;> intro hg <;> cases sig <;>
    simp_all [isGracefulSignal, signalHandler, gracefulShutdown, finish]

/-- Witness for C7: terminate while accepting keeps the three open
connections and stops acceptance; interrupt while not accepting closes
them; quit while accepting closes them. -/
theorem C7_signal_witness :
    signalHandler Signal.SIGTERM ⟨true, 3⟩ = ⟨false, 3⟩ ∧
    signalHandler Signal.SIGINT ⟨false, 3⟩ = ⟨false, 0⟩ ∧
    signalHandler Signal.SIGQUIT ⟨true, 3⟩ = ⟨true, 0⟩ :=
  ⟨(C7_signal_policies ⟨true, 3⟩ Signal.SIGTERM).1 rfl rfl,
   (C7_signal_policies ⟨false, 3⟩ Signal.SIGINT).2.1 rfl rfl,
   (C7_signal_policies ⟨true, 3⟩ Signal.SIGQUIT).2.2 rfl⟩

/-- Claim C8: with HTTPS disabled the factory builds the plain
listener and the set of credential paths it reads is empty. -/
theorem C8_plain_reads_nothing (env : ServerEnvironment) (fs : FileSystem)
    (h : env.HTTPS = false) :
    createServerModel env fs = Except.ok ServerResult.httpServer ∧
    createServerReads env = [] := by
  simp [createServerModel, createServerReads, h]

/-- Witness for C8 on the concrete plain environment. -/
theorem C8_plain_witness :
    createServerModel envPlain fsNone = Except.ok ServerResult.httpServer ∧
    createServerReads envPlain = [] :=
  C8_plain_reads_nothing envPlain fsNone rfl

/-- Counterexample to claim C9 as stated: with no error callback
supplied, no listener is attached to the watchers, so a watcher error
is reported nowhere — in particular not with the watch tag — and the
unhandled error event is fatal under the platform default. -/
theorem C9_counterexample :
    emitWatcherError optsSilent = ([], true) ∧
    ErrorTag.watch ∉ (emitWatcherError optsSilent).1 := by
  decide

/-- Claim C9 amended: when an error callback is supplied, a watcher
failure is reported through it with the watch tag, which is distinct
from the renew tag of reload failures, and the event is not fatal;
when no callback is supplied nothing is attached, nothing is reported
and the unhandled error event is fatal by the platform default. -/
theorem C9_watch_error_reporting (opts : CreateServerOptions) :
    (opts.errorHandler = true →
        emitWatcherError opts = ([ErrorTag.watch], false)) ∧
    (opts.errorHandler = false →
        emitWatcherError opts = ([], true)) ∧
    ErrorTag.watch ≠ ErrorTag.renew := by
  refine ⟨?_, ?_, by decide⟩ <;> intro h <;>
    simp [emitWatcherError, watcherErrorListeners, h]

/-- Witness for C9 amended at both concrete option records. -/
theorem C9_watch_error_witness :
    emitWatcherError optsFive = ([ErrorTag.watch], false) ∧
    emitWatcherError optsSilent = ([], true) :=
  ⟨(C9_watch_error_reporting optsFive).1 rfl,
   (C9_watch_error_reporting optsSilent).2.1 rfl⟩

/-- Claim C10: calling the factory with a bare boolean resolves to the
same options as calling it with a record holding only listen, namely
the defaults with listen replaced: signal handlers on, watching on,
delay 1000, five attempts, no error callback. -/
theorem C10_boolean_equals_listen_record (b : Bool) :
    resolveOptions (OptionsArg.bool b)
        = resolveOptions (OptionsArg.record { listen := some b }) ∧
    resolveOptions (OptionsArg.bool b) =
      { listen := b
        setSignalHandlers := true
        watchCert := true
        reloadDelay := 1000
        reloadAttempts := 5
        errorHandler := false } :=
  ⟨rfl, rfl⟩

end CreateServer
